import Mathlib

/-
  Verification of the Carbono carbon-footprint tracker (src/app.js).

  The development shallowly embeds the core logic of the application:
  the factor tables, the emissions engine (CarbonStorage.calculateEmissions),
  the monthly history ledger upsert, the weekly plan tracker
  (CarbonStorage.updatePlanProgress, CarbonStorage.getPreviousPlans), and the
  scenario projector (updateScenarioResults and the save-scenario handler in
  setupScenarioControls).

  Modelling conventions:
  - JavaScript numbers are modelled by `JsNum`: either a finite rational
    (`JsNum.num q`, arithmetic is exact over ℚ) or `JsNum.nan`, which stands
    for any non-finite double (NaN or ±Infinity).  The only sources of
    non-finite values in the embedded fragment are multiplication by an
    `undefined` factor-table lookup (NaN in JavaScript) and division by
    zero (NaN or ±Infinity in JavaScript); both are collapsed to `JsNum.nan`.
  - Object-table lookups that can miss (`EMISSION_FACTORS[cat][type]`,
    `FREQUENCY_FACTORS[freq]`) return `Option ℚ`, `none` playing the role of
    JavaScript's `undefined`.
  - Numeric habit fields (distance, consumption, quantity) are modelled as
    present, finite rationals; the claims under study only concern habits
    whose numeric fields are present.
-/

namespace Carbono

/-- A JavaScript number as used by the app: a finite rational, or `nan`
standing for any non-finite double (NaN or ±Infinity). -/
inductive JsNum where
  | nan : JsNum
  | num (q : ℚ) : JsNum
deriving DecidableEq, Repr

/-- JavaScript addition on the embedded number domain: any non-finite
operand makes the result non-finite. -/
def jadd : JsNum → JsNum → JsNum
  | JsNum.num a, JsNum.num b => JsNum.num (a + b)
  | _, _ => JsNum.nan

/-- JavaScript multiplication on the embedded number domain (in the fragment
used by the app no product of finite values overflows, and `x * undefined`
is NaN). -/
def jmul : JsNum → JsNum → JsNum
  | JsNum.num a, JsNum.num b => JsNum.num (a * b)
  | _, _ => JsNum.nan

/-- JavaScript division: division by zero yields a non-finite double
(NaN for 0/0, ±Infinity otherwise), collapsed to `nan` here. -/
def jdiv : JsNum → JsNum → JsNum
  | JsNum.num a, JsNum.num b => if b = 0 then JsNum.nan else JsNum.num (a / b)
  | _, _ => JsNum.nan

@[simp] theorem jadd_nan_left (b : JsNum) : jadd JsNum.nan b = JsNum.nan := by
  cases b <;> rfl

@[simp] theorem jadd_nan_right (a : JsNum) : jadd a JsNum.nan = JsNum.nan := by
  cases a <;> rfl

@[simp] theorem jmul_nan_left (b : JsNum) : jmul JsNum.nan b = JsNum.nan := by
  cases b <;> rfl

@[simp] theorem jmul_nan_right (a : JsNum) : jmul a JsNum.nan = JsNum.nan := by
  cases a <;> rfl

@[simp] theorem jadd_num_num (a b : ℚ) :
    jadd (JsNum.num a) (JsNum.num b) = JsNum.num (a + b) := rfl

@[simp] theorem jmul_num_num (a b : ℚ) :
    jmul (JsNum.num a) (JsNum.num b) = JsNum.num (a * b) := rfl

@[simp] theorem jadd_zero_left (b : JsNum) :
    jadd (JsNum.num 0) b = b := by
  cases b <;> simp [jadd]

/-- The five habit categories of the app. -/
inductive Category where
  | transport
  | energy
  | food
  | shopping
  | waste
deriving DecidableEq, Repr

/-- The EMISSION_FACTORS table of src/app.js (kg CO₂e per unit), as a
partial lookup from (category, type); `none` models an `undefined`
JavaScript lookup for an unknown type. -/
def EMISSION_FACTORS : Category → String → Option ℚ
  | Category.transport, "car_gasoline" => some (12/100)
  | Category.transport, "car_ethanol" => some (5/100)
  | Category.transport, "motorcycle" => some (8/100)
  | Category.transport, "bus" => some (3/100)
  | Category.transport, "subway" => some (2/100)
  | Category.transport, "bicycle" => some 0
  | Category.transport, "walking" => some 0
  | Category.transport, "airplane" => some (18/100)
  | Category.energy, "electricity" => some (15/100)
  | Category.energy, "natural_gas" => some 2
  | Category.energy, "lpg" => some (3/2)
  | Category.food, "beef" => some 27
  | Category.food, "chicken" => some (69/10)
  | Category.food, "pork" => some (121/10)
  | Category.food, "fish" => some 5
  | Category.food, "dairy" => some (16/5)
  | Category.food, "vegetables" => some 2
  | Category.food, "grains" => some (3/2)
  | Category.shopping, "electronics" => some 50
  | Category.shopping, "clothing" => some 15
  | Category.shopping, "furniture" => some 100
  | Category.shopping, "plastic" => some 5
  | Category.shopping, "paper" => some 2
  | Category.waste, "landfill" => some (1/2)
  | Category.waste, "recycled" => some (1/10)
  | Category.waste, "composted" => some (1/20)
  | _, _ => none

/-- The FREQUENCY_FACTORS table of src/app.js: monthly occurrence count per
frequency key; `none` models an `undefined` lookup for an unknown key. -/
def FREQUENCY_FACTORS : String → Option ℚ
  | "daily" => some 30
  | "weekly_1" => some 4
  | "weekly_2" => some 8
  | "weekly_3" => some 12
  | "weekly_5" => some 20
  | "monthly_1" => some 1
  | "monthly_2" => some 2
  | "monthly_4" => some 4
  | _ => none

/-- A habit record.  Numeric fields are modelled as present, finite
rationals; `frequency` is optional (transport only), `none` modelling a
missing field.  The derived `emissions` annotation is omitted: inside
`calculateEmissions` it is written onto a transient parsed copy of the
habit list and never saved, so it plays no role in the claims studied
here. -/
structure Habit where
  id : ℤ
  category : Category
  type : String
  quantity : ℚ
  distance : ℚ
  consumption : ℚ
  frequency : Option String
deriving DecidableEq, Repr

/-- An `EMISSION_FACTORS` lookup as it enters arithmetic: an `undefined`
lookup multiplied by a number is NaN, so a missing entry becomes `nan`. -/
def factorNum (c : Category) (t : String) : JsNum :=
  match EMISSION_FACTORS c t with
  | some q => JsNum.num q
  | none => JsNum.nan

/-- The per-habit monthly emissions computed by the `switch` inside
`CarbonStorage.calculateEmissions` (src/app.js lines 107-144).  For
transport, `FREQUENCY_FACTORS[habit.frequency] || 1` falls back to 1 both
for a missing `frequency` field and for an unknown key (no table entry is
0, so the `||` never rejects a present entry). -/
def habitEmissions (h : Habit) : JsNum :=
  match h.category with
  | Category.transport =>
      let freqFactor : ℚ := (h.frequency.bind FREQUENCY_FACTORS).getD 1
      let monthlyDistance : ℚ := h.distance * freqFactor
      jmul (JsNum.num monthlyDistance) (factorNum Category.transport h.type)
  | Category.energy =>
      jmul (JsNum.num h.consumption) (factorNum Category.energy h.type)
  | Category.food =>
      let weeklyKg := h.quantity
      let monthlyKg := weeklyKg * 4
      jmul (JsNum.num monthlyKg) (factorNum Category.food h.type)
  | Category.shopping =>
      jmul (JsNum.num h.quantity) (factorNum Category.shopping h.type)
  | Category.waste =>
      let weeklyWaste := h.quantity
      let monthlyWaste := weeklyWaste * 4
      jmul (JsNum.num monthlyWaste) (factorNum Category.waste h.type)

/-- The `emissionsByCategory` accumulator object of `calculateEmissions`. -/
structure ByCategory where
  transport : JsNum
  energy : JsNum
  food : JsNum
  shopping : JsNum
  waste : JsNum
deriving DecidableEq, Repr

/-- The initial accumulator: every category starts at 0. -/
def initByCategory : ByCategory :=
  { transport := JsNum.num 0, energy := JsNum.num 0, food := JsNum.num 0,
    shopping := JsNum.num 0, waste := JsNum.num 0 }

/-- Projection of the accumulator at a category. -/
def catVal (bc : ByCategory) : Category → JsNum
  | Category.transport => bc.transport
  | Category.energy => bc.energy
  | Category.food => bc.food
  | Category.shopping => bc.shopping
  | Category.waste => bc.waste

/-- One iteration of the `habits.forEach` loop: add the habit's emissions
to its category's accumulator field. -/
def accumHabit (acc : ByCategory) (h : Habit) : ByCategory :=
  match h.category with
  | Category.transport => { acc with transport := jadd acc.transport (habitEmissions h) }
  | Category.energy => { acc with energy := jadd acc.energy (habitEmissions h) }
  | Category.food => { acc with food := jadd acc.food (habitEmissions h) }
  | Category.shopping => { acc with shopping := jadd acc.shopping (habitEmissions h) }
  | Category.waste => { acc with waste := jadd acc.waste (habitEmissions h) }

/-- The per-category totals after the `forEach` loop over the habit list. -/
def emissionsByCategory (habits : List Habit) : ByCategory :=
  habits.foldl accumHabit initByCategory

/-- The grand total: `Object.values(emissionsByCategory).reduce((a, b) => a + b, 0)`,
folding over the object's values in key insertion order. -/
def totalOf (bc : ByCategory) : JsNum :=
  [bc.transport, bc.energy, bc.food, bc.shopping, bc.waste].foldl jadd (JsNum.num 0)

/-- A monthly aggregate record as written into `data.emissions`. -/
structure MonthlyAggregate where
  month : String
  total : JsNum
  byCategory : ByCategory
deriving DecidableEq, Repr

/-- The aggregate built by `calculateEmissions` for the current month. -/
def calculateEmissionsAgg (habits : List Habit) (currentMonth : String) : MonthlyAggregate :=
  { month := currentMonth,
    total := totalOf (emissionsByCategory habits),
    byCategory := emissionsByCategory habits }

/-- The ledger upsert at the end of `calculateEmissions` (src/app.js lines
150-167): `findIndex` the entry whose month equals the current month;
replace it in place when found, otherwise push the fresh aggregate. -/
def upsertEmissions (hist : List MonthlyAggregate) (agg : MonthlyAggregate) :
    List MonthlyAggregate :=
  match hist.findIdx? (fun e => e.month == agg.month) with
  | some i => hist.set i agg
  | none => hist ++ [agg]

/-- First-match recursion equivalent of `upsertEmissions`, used for
induction proofs. -/
def upsertRec : List MonthlyAggregate → MonthlyAggregate → List MonthlyAggregate
  | [], agg => [agg]
  | e :: rest, agg =>
      if e.month = agg.month then agg :: rest else e :: upsertRec rest agg

/-- One full emissions recompute, restricted to its effect on the
`data.emissions` history: build the current month's aggregate from the
habit list and upsert it. -/
def recomputeHistory (habits : List Habit) (hist : List MonthlyAggregate)
    (currentMonth : String) : List MonthlyAggregate :=
  upsertEmissions hist (calculateEmissionsAgg habits currentMonth)

/-- A weekly-plan goal: the user-entered value plus a completion flag. -/
structure Goal where
  value : String
  completed : Bool
deriving DecidableEq, Repr

/-- A weekly plan.  The `weekStart`, `weekEnd` and `createdAt` date fields
are not modelled: they are never read by the plan-progress logic under
study. -/
structure WeeklyPlan where
  id : ℤ
  goals : List Goal
  progress : ℤ
  completed : Bool
deriving DecidableEq, Repr

/-- JavaScript `Math.round`: round half towards positive infinity. -/
def jsRound (q : ℚ) : ℤ := ⌊q + 1/2⌋

/-- `CarbonStorage.updatePlanProgress` (src/app.js lines 230-252): find the
plan by id (`findIndex`); if found and the goal index is valid (the goal
object is truthy), set that goal's completion flag, recompute
`progress = Math.round(completedGoals / goals.length * 100)`, and set the
plan's `completed` flag to true when every goal is completed (it is never
reset to false); otherwise leave the stored state unchanged. -/
def updatePlanProgress (plans : List WeeklyPlan) (planId : ℤ) (goalIndex : ℕ)
    (completed : Bool) : List WeeklyPlan :=
  match plans.findIdx? (fun p => p.id == planId) with
  | none => plans
  | some planIdx =>
    match plans[planIdx]? with
    | none => plans
    | some plan =>
      match plan.goals[goalIndex]? with
      | none => plans
      | some g =>
        let goals := plan.goals.set goalIndex { g with completed := completed }
        let completedGoals := goals.countP (fun x => x.completed)
        let progress := jsRound ((completedGoals : ℚ) / (goals.length : ℚ) * 100)
        let planCompleted := if completedGoals = goals.length then true else plan.completed
        plans.set planIdx
          { plan with goals := goals, progress := progress, completed := planCompleted }

/-- `CarbonStorage.getPreviousPlans` (src/app.js lines 254-258): filter the
stored plans, keeping those whose id differs from `data.currentPlan`
(`p.id !== currentPlanId`; when `currentPlan` is null the strict
comparison against a number is always true, so every plan is kept). -/
def getPreviousPlans (plans : List WeeklyPlan) (currentPlan : Option ℤ) :
    List WeeklyPlan :=
  plans.filter (fun p =>
    match currentPlan with
    | none => true
    | some cid => p.id != cid)

/-- The baseline read by the scenario code: `CarbonStorage.getCurrentEmissions()`
with its `total` and the `byCategory` entries the projector uses
(`transport`, `energy`, `waste`, each defaulted to 0 by `|| 0` when
absent).  Values are taken finite, per the data model. -/
structure Baseline where
  total : ℚ
  transport : ℚ
  energy : ℚ
  waste : ℚ
deriving DecidableEq, Repr

/-- The projected total computed step by step in `updateScenarioResults`
(src/app.js lines 852-868), before the clamp. -/
def projectedRawPreview (b : Baseline) (carReduction : ℚ) (meatDays : ℤ)
    (energyReduction recyclingIncrease : ℚ) : ℚ :=
  let projectedTotal := b.total
  let transportReduction := b.transport * (1/2) * carReduction
  let projectedTotal := projectedTotal - transportReduction
  let foodReduction := (meatDays : ℚ) * (1/2) * 4
  let projectedTotal := projectedTotal - foodReduction
  let energyReductionKg := b.energy * energyReduction
  let projectedTotal := projectedTotal - energyReductionKg
  let wasteReduction := b.waste * (4/5) * recyclingIncrease
  projectedTotal - wasteReduction

/-- The projected total computed step by step in the save-scenario handler
of `setupScenarioControls` (src/app.js lines 798-814); the code duplicates
the preview formula. -/
def projectedRawSaved (b : Baseline) (carReduction : ℚ) (meatDays : ℤ)
    (energyReduction recyclingIncrease : ℚ) : ℚ :=
  let projectedTotal := b.total
  let transportReduction := b.transport * (1/2) * carReduction
  let projectedTotal := projectedTotal - transportReduction
  let foodReduction := (meatDays : ℚ) * (1/2) * 4
  let projectedTotal := projectedTotal - foodReduction
  let energyReductionKg := b.energy * energyReduction
  let projectedTotal := projectedTotal - energyReductionKg
  let wasteReduction := b.waste * (4/5) * recyclingIncrease
  projectedTotal - wasteReduction

/-- The live-preview projected total: `projectedTotal = Math.max(0, projectedTotal)`
(src/app.js line 871). -/
def previewProjected (b : Baseline) (carReduction : ℚ) (meatDays : ℤ)
    (energyReduction recyclingIncrease : ℚ) : ℚ :=
  max 0 (projectedRawPreview b carReduction meatDays energyReduction recyclingIncrease)

/-- The live-preview reduction percentage (src/app.js lines 877-878):
guarded by `totalEmissions > 0 ? ... : 0`, so it is always a finite
number.  The numeric value before `toFixed` formatting is modelled. -/
def previewReductionPercent (b : Baseline) (carReduction : ℚ) (meatDays : ℤ)
    (energyReduction recyclingIncrease : ℚ) : JsNum :=
  let reductionKg :=
    b.total - previewProjected b carReduction meatDays energyReduction recyclingIncrease
  if 0 < b.total then JsNum.num (reductionKg / b.total * 100) else JsNum.num 0

/-- The saved-scenario reduction percentage (src/app.js line 816):
`(currentEmissions.total - projectedTotal) / currentEmissions.total * 100`
with no divide-by-zero guard.  The numeric value before `toFixed`
formatting is modelled. -/
def savedReductionPercent (b : Baseline) (carReduction : ℚ) (meatDays : ℤ)
    (energyReduction recyclingIncrease : ℚ) : JsNum :=
  jmul
    (jdiv
      (JsNum.num (b.total - projectedRawSaved b carReduction meatDays energyReduction recyclingIncrease))
      (JsNum.num b.total))
    (JsNum.num 100)

/-- A saved scenario record (the `description` string is omitted). -/
structure Scenario where
  name : String
  baselineEmissions : ℚ
  projectedEmissions : ℚ
  reductionPercent : JsNum
  reductionKg : ℚ
  carReduction : ℚ
  meatDays : ℤ
  energyReduction : ℚ
  recyclingIncrease : ℚ
deriving DecidableEq, Repr

/-- The scenario object built by the save-scenario handler (src/app.js
lines 818-829): the persisted `projectedEmissions` is the raw, unclamped
projected total. -/
def mkScenario (name : String) (b : Baseline) (carReduction : ℚ) (meatDays : ℤ)
    (energyReduction recyclingIncrease : ℚ) : Scenario :=
  { name := name,
    baselineEmissions := b.total,
    projectedEmissions :=
      projectedRawSaved b carReduction meatDays energyReduction recyclingIncrease,
    reductionPercent :=
      savedReductionPercent b carReduction meatDays energyReduction recyclingIncrease,
    reductionKg :=
      b.total - projectedRawSaved b carReduction meatDays energyReduction recyclingIncrease,
    carReduction := carReduction,
    meatDays := meatDays,
    energyReduction := energyReduction,
    recyclingIncrease := recyclingIncrease }

/-- The transport habit of the spec's worked example:
`{type: car_gasoline, distance: 20, frequency: daily}`. -/
def carHabit : Habit :=
  { id := 1, category := Category.transport, type := "car_gasoline",
    quantity := 0, distance := 20, consumption := 0, frequency := some "daily" }

/-- The food habit of the spec's worked example: `{type: beef, quantity: 1}`. -/
def beefHabit : Habit :=
  { id := 2, category := Category.food, type := "beef",
    quantity := 1, distance := 0, consumption := 0, frequency := none }

/-- A transport habit whose type is not a key of the transport factor
table. -/
def badHabit : Habit :=
  { id := 3, category := Category.transport, type := "teleporter",
    quantity := 0, distance := 10, consumption := 0, frequency := some "daily" }

/-- A transport habit with the unknown frequency key "yearly". -/
def mystHabit : Habit :=
  { id := 9, category := Category.transport, type := "bus",
    quantity := 0, distance := 10, consumption := 0, frequency := some "yearly" }

/-- A four-goal weekly plan with its first goal already completed. -/
def demoPlan : WeeklyPlan :=
  { id := 7,
    goals := [{ value := "a", completed := true }, { value := "b", completed := false },
              { value := "c", completed := false }, { value := "d", completed := false }],
    progress := 25, completed := false }

/-- A one-goal weekly plan whose goal is completed and whose completed
flag is set (the state reached by completing every goal). -/
def demoDone : WeeklyPlan :=
  { id := 5, goals := [{ value := "g", completed := true }], progress := 100,
    completed := true }

/-- The expected result of toggling the second goal of `demoPlan` to
completed: two of four goals done, progress 50, plan not completed. -/
def demoPlanAfter : WeeklyPlan :=
  { id := 7,
    goals := [{ value := "a", completed := true }, { value := "b", completed := true },
              { value := "c", completed := false }, { value := "d", completed := false }],
    progress := 50, completed := false }

/-- Three goal-less weekly plans with ids 1, 2, 3, stored in creation
order. -/
def planA : WeeklyPlan := { id := 1, goals := [], progress := 0, completed := false }

/-- Second demo plan. -/
def planB : WeeklyPlan := { id := 2, goals := [], progress := 0, completed := false }

/-- Third demo plan. -/
def planC : WeeklyPlan := { id := 3, goals := [], progress := 0, completed := false }

/-- The empty baseline: no emissions recorded. -/
def zeroBaseline : Baseline := { total := 0, transport := 0, energy := 0, waste := 0 }

/-- The baseline of the spec's scenario example. -/
def exampleBaseline : Baseline :=
  { total := 180, transport := 72, energy := 0, waste := 0 }

/-- Lookup evaluation: the gasoline car factor. -/
theorem EF_car_gasoline :
    EMISSION_FACTORS Category.transport "car_gasoline" = some (12/100) := rfl

/-- Lookup evaluation: the beef factor. -/
theorem EF_beef : EMISSION_FACTORS Category.food "beef" = some 27 := rfl

/-- Lookup evaluation: the bus factor. -/
theorem EF_bus : EMISSION_FACTORS Category.transport "bus" = some (3/100) := rfl

/-- Lookup evaluation: "teleporter" is not a transport type. -/
theorem EF_teleporter :
    EMISSION_FACTORS Category.transport "teleporter" = none := rfl

/-- Lookup evaluation: the daily frequency multiplier. -/
theorem FF_daily : FREQUENCY_FACTORS "daily" = some 30 := rfl

/-- Lookup evaluation: "yearly" is not a frequency key. -/
theorem FF_yearly : FREQUENCY_FACTORS "yearly" = none := rfl

/-- A habit whose category has no factor-table entry for its type computes
to a non-finite emission value (`undefined` times a number is NaN). -/
theorem habitEmissions_nan_of_factor_none (h : Habit)
    (hf : EMISSION_FACTORS h.category h.type = none) :
    habitEmissions h = JsNum.nan := by
  rcases h with ⟨id, cat, ty, q, d, c, fr⟩
  cases cat <;> simp_all [habitEmissions, factorNum]

/-- Once a category's accumulator field is non-finite, the rest of the
`forEach` loop leaves it non-finite. -/
theorem catVal_foldl_nan (hs : List Habit) (acc : ByCategory) (c : Category)
    (hacc : catVal acc c = JsNum.nan) :
    catVal (hs.foldl accumHabit acc) c = JsNum.nan := by
  induction hs generalizing acc with
  | nil => exact hacc
  | cons x t ih =>
      apply ih
      cases hcat : x.category <;> cases c <;> simp_all [accumHabit, catVal]

/-- A habit with a non-finite emission value makes its category's
accumulator field non-finite. -/
theorem catVal_foldl_nan_of_mem (hs : List Habit) (acc : ByCategory) (h : Habit)
    (hmem : h ∈ hs) (hnan : habitEmissions h = JsNum.nan) :
    catVal (hs.foldl accumHabit acc) h.category = JsNum.nan := by
  induction hs generalizing acc with
  | nil => cases hmem
  | cons x t ih =>
      rcases List.mem_cons.mp hmem with rfl | hmem2
      · rw [List.foldl_cons]
        apply catVal_foldl_nan
        cases hcat : h.category <;> simp [accumHabit, catVal, hcat, hnan]
      · rw [List.foldl_cons]
        exact ih _ hmem2

/-- A non-finite category value makes the grand total non-finite. -/
theorem totalOf_nan (bc : ByCategory) (c : Category) (h : catVal bc c = JsNum.nan) :
    totalOf bc = JsNum.nan := by
  cases c <;> simp_all [totalOf, catVal, List.foldl]

/-- C1: for every habit collection, the monthly aggregate produced by the
emissions recompute is additive: its total equals the sum of the five
per-category values of its byCategory mapping. -/
theorem calculateEmissions_total_additivity (habits : List Habit) (m : String) :
    (calculateEmissionsAgg habits m).total =
      jadd (jadd (jadd (jadd (calculateEmissionsAgg habits m).byCategory.transport
            (calculateEmissionsAgg habits m).byCategory.energy)
          (calculateEmissionsAgg habits m).byCategory.food)
        (calculateEmissionsAgg habits m).byCategory.shopping)
      (calculateEmissionsAgg habits m).byCategory.waste := by
  simp [calculateEmissionsAgg, totalOf, List.foldl]

/-- C2 counterexample: a transport habit with unknown type "teleporter" is
not treated as a zero contribution; it poisons the transport total and the
grand total with NaN, so the aggregate differs from the one computed with
the habit absent. -/
theorem unknown_type_not_zero_contribution :
    (calculateEmissionsAgg [badHabit] "2025-01").total = JsNum.nan ∧
    (calculateEmissionsAgg [] "2025-01").total = JsNum.num 0 ∧
    calculateEmissionsAgg [badHabit] "2025-01" ≠ calculateEmissionsAgg [] "2025-01" := by
  have h1 : (calculateEmissionsAgg [badHabit] "2025-01").total = JsNum.nan := by
    simp [calculateEmissionsAgg, totalOf, emissionsByCategory, accumHabit,
      initByCategory, habitEmissions, factorNum, EF_teleporter, FF_daily,
      badHabit, catVal, List.foldl]
  have h2 : (calculateEmissionsAgg [] "2025-01").total = JsNum.num 0 := by
    simp [calculateEmissionsAgg, totalOf, emissionsByCategory, initByCategory,
      List.foldl]
  refine ⟨h1, h2, fun heq => ?_⟩
  rw [heq, h2] at h1
  simp at h1

/-- C2 amended: a habit whose type is not a key of the emission-factor
table for its category contributes NaN, not zero: its category's total and
the grand total of the recomputed aggregate are both non-finite. -/
theorem unknown_type_poisons_totals (habits : List Habit) (h : Habit) (m : String)
    (hmem : h ∈ habits) (hf : EMISSION_FACTORS h.category h.type = none) :
    catVal (calculateEmissionsAgg habits m).byCategory h.category = JsNum.nan ∧
    (calculateEmissionsAgg habits m).total = JsNum.nan := by
  have hnan := habitEmissions_nan_of_factor_none h hf
  have hcat : catVal (emissionsByCategory habits) h.category = JsNum.nan :=
    catVal_foldl_nan_of_mem habits initByCategory h hmem hnan
  exact ⟨hcat, totalOf_nan _ _ hcat⟩

/-- Witness for the amended C2 at a concrete habit set. -/
theorem unknown_type_poisons_totals_witness :
    badHabit ∈ [badHabit] ∧
    EMISSION_FACTORS badHabit.category badHabit.type = none ∧
    (calculateEmissionsAgg [badHabit] "2025-01").total = JsNum.nan :=
  ⟨by decide, by decide,
    (unknown_type_poisons_totals [badHabit] badHabit "2025-01" (by decide) (by decide)).2⟩

/-- C3: the spec's worked example: the car habit yields 72 kg, the beef
habit 108 kg, and the recomputed grand total is 180 kg. -/
theorem example_scenario_totals :
    habitEmissions carHabit = JsNum.num 72 ∧
    habitEmissions beefHabit = JsNum.num 108 ∧
    (calculateEmissionsAgg [carHabit, beefHabit] "2025-01").total = JsNum.num 180 := by
  refine ⟨?_, ?_, ?_⟩ <;>
    norm_num [calculateEmissionsAgg, totalOf, emissionsByCategory, accumHabit,
      initByCategory, habitEmissions, factorNum, EF_car_gasoline, EF_beef,
      FF_daily, carHabit, beefHabit, jmul, jadd, List.foldl]

/-- C10: a transport habit whose frequency is missing or not a key of
FREQUENCY_FACTORS silently gets a monthly multiplier of 1, contributing
distance × 1 × EmissionFactor(transport, type). -/
theorem unknown_frequency_defaults_to_one (h : Habit)
    (hcat : h.category = Category.transport)
    (hfreq : h.frequency.bind FREQUENCY_FACTORS = none) :
    habitEmissions h =
      jmul (JsNum.num (h.distance * 1)) (factorNum Category.transport h.type) := by
  rcases h with ⟨id, cat, ty, q, d, c, fr⟩
  simp only at hcat hfreq
  subst hcat
  simp [habitEmissions, hfreq]

/-- The findIndex-then-replace-or-push upsert coincides with its
first-match recursion equivalent. -/
theorem upsertEmissions_eq_upsertRec (hist : List MonthlyAggregate)
    (agg : MonthlyAggregate) :
    upsertEmissions hist agg = upsertRec hist agg := by
  induction hist with
  | nil => rfl
  | cons e rest ih =>
      by_cases h : e.month = agg.month
      · simp [upsertEmissions, upsertRec, List.findIdx?_cons, h]
      · have hne : (e.month == agg.month) = false := by simp [h]
        rw [upsertEmissions, upsertRec, List.findIdx?_cons, hne]
        simp only [Bool.false_eq_true, if_false, if_neg h, List.findIdx?_succ]
        rw [← ih]
        cases hfi : List.findIdx? (fun x => x.month == agg.month) rest with
        | none => simp [upsertEmissions, hfi]
        | some i => simp [upsertEmissions, hfi, List.set_cons_succ]

/-- After an upsert, the number of entries for the upserted month is 1 if
there was none, and is unchanged otherwise. -/
theorem upsertRec_countP (hist : List MonthlyAggregate) (agg : MonthlyAggregate) :
    (upsertRec hist agg).countP (fun e => e.month == agg.month) =
      if hist.countP (fun e => e.month == agg.month) = 0 then 1
      else hist.countP (fun e => e.month == agg.month) := by
  induction hist with
  | nil => simp [upsertRec]
  | cons e rest ih =>
      by_cases h : e.month = agg.month
      · simp [upsertRec, h, List.countP_cons]
      · simp [upsertRec, h, List.countP_cons, ih]

/-- An upsert grows the history by one entry exactly when the month was
absent; otherwise it replaces in place. -/
theorem upsertRec_length (hist : List MonthlyAggregate) (agg : MonthlyAggregate) :
    (upsertRec hist agg).length =
      if hist.countP (fun e => e.month == agg.month) = 0 then hist.length + 1
      else hist.length := by
  induction hist with
  | nil => simp [upsertRec]
  | cons e rest ih =>
      by_cases h : e.month = agg.month
      · simp [upsertRec, h, List.countP_cons]
      · simp only [upsertRec, if_neg h, List.length_cons, List.countP_cons, ih]
        have hne : (e.month == agg.month) = false := by simp [h]
        rw [hne]
        by_cases h0 : rest.countP (fun e => e.month == agg.month) = 0 <;> simp [h0]

/-- C4: starting from a ledger satisfying the one-entry-per-month
invariant, two emissions recomputes within the same month leave the
history length unchanged relative to one recompute, and exactly one entry
for that month. -/
theorem ledger_upsert_single_entry (hist : List MonthlyAggregate)
    (habits1 habits2 : List Habit) (m : String)
    (hinv : hist.countP (fun e => e.month == m) ≤ 1) :
    (recomputeHistory habits2 (recomputeHistory habits1 hist m) m).length =
      (recomputeHistory habits1 hist m).length ∧
    (recomputeHistory habits2 (recomputeHistory habits1 hist m) m).countP
      (fun e => e.month == m) = 1 := by
  have hm1 : (calculateEmissionsAgg habits1 m).month = m := rfl
  have hm2 : (calculateEmissionsAgg habits2 m).month = m := rfl
  have hcnt1 :
      (recomputeHistory habits1 hist m).countP (fun e => e.month == m) = 1 := by
    rw [recomputeHistory, upsertEmissions_eq_upsertRec]
    have h := upsertRec_countP hist (calculateEmissionsAgg habits1 m)
    rw [hm1] at h
    rw [h]
    rcases Nat.le_one_iff_eq_zero_or_eq_one.mp hinv with h0 | h1
    · rw [if_pos h0]
    · rw [if_neg (by omega), h1]
  constructor
  · rw [recomputeHistory, upsertEmissions_eq_upsertRec]
    have h := upsertRec_length (recomputeHistory habits1 hist m)
      (calculateEmissionsAgg habits2 m)
    rw [hm2] at h
    rw [h, if_neg (by omega)]
  · rw [recomputeHistory, upsertEmissions_eq_upsertRec]
    have h := upsertRec_countP (recomputeHistory habits1 hist m)
      (calculateEmissionsAgg habits2 m)
    rw [hm2] at h
    rw [h, if_neg (by omega), hcnt1]

/-- Witness for C4 on the empty ledger. -/
theorem ledger_upsert_single_entry_witness :
    ([] : List MonthlyAggregate).countP (fun e => e.month == "2025-06") ≤ 1 ∧
    ((recomputeHistory [] (recomputeHistory [carHabit] [] "2025-06") "2025-06").length =
        (recomputeHistory [carHabit] [] "2025-06").length ∧
      (recomputeHistory [] (recomputeHistory [carHabit] [] "2025-06") "2025-06").countP
        (fun e => e.month == "2025-06") = 1) :=
  ⟨by decide, ledger_upsert_single_entry [] [carHabit] [] "2025-06" (by decide)⟩

/-- C5: on a zero-total baseline the live-preview path returns the guarded
fallback 0, but the saved-scenario path divides by the zero baseline total
and stores a non-finite reductionPercent (0/0 is NaN in JavaScript). -/
theorem reductionPercent_zero_baseline (b : Baseline) (car : ℚ) (meat : ℤ)
    (e r : ℚ) (h : b.total = 0) :
    previewReductionPercent b car meat e r = JsNum.num 0 ∧
    savedReductionPercent b car meat e r = JsNum.nan := by
  constructor
  · rw [previewReductionPercent, if_neg (by rw [h]; exact lt_irrefl 0)]
  · rw [savedReductionPercent, jdiv, if_pos h]
    exact jmul_nan_left _

/-- Witness for C5 at the empty baseline with all parameters zero. -/
theorem reductionPercent_zero_baseline_witness :
    zeroBaseline.total = 0 ∧
    (previewReductionPercent zeroBaseline 0 0 0 0 = JsNum.num 0 ∧
      savedReductionPercent zeroBaseline 0 0 0 0 = JsNum.nan) :=
  ⟨rfl, reductionPercent_zero_baseline zeroBaseline 0 0 0 0 rfl⟩

/-- C7: the live-preview projected total is the raw projection clamped at
0, while the persisted scenario stores the unclamped result of the same
subtraction formula, which can be negative. -/
theorem scenario_clamp_asymmetry (name : String) (b : Baseline) (car : ℚ)
    (meat : ℤ) (e r : ℚ) :
    previewProjected b car meat e r = max 0 (projectedRawPreview b car meat e r) ∧
    (mkScenario name b car meat e r).projectedEmissions =
      projectedRawPreview b car meat e r ∧
    ∃ n2 b2 car2 meat2 e2 r2,
      (mkScenario n2 b2 car2 meat2 e2 r2).projectedEmissions < 0 := by
  refine ⟨rfl, rfl, "x", zeroBaseline, 0, 7, 0, 0, ?_⟩
  norm_num [mkScenario, projectedRawSaved, zeroBaseline]

/-- C8: with all reduction parameters zero the raw projection is exactly
the baseline total, and (for the nonnegative totals of the data model) so
is the clamped live-preview value. -/
theorem projection_identity_at_zero_params (b : Baseline) (h : 0 ≤ b.total) :
    projectedRawSaved b 0 0 0 0 = b.total ∧
    previewProjected b 0 0 0 0 = b.total := by
  have hraw : projectedRawPreview b 0 0 0 0 = b.total := by
    simp [projectedRawPreview]
  refine ⟨by simp [projectedRawSaved], ?_⟩
  rw [previewProjected, hraw]
  exact max_eq_right h

/-- Witness for C8 at the spec's example baseline. -/
theorem projection_identity_at_zero_params_witness :
    (0:ℚ) ≤ exampleBaseline.total ∧
    (projectedRawSaved exampleBaseline 0 0 0 0 = exampleBaseline.total ∧
      previewProjected exampleBaseline 0 0 0 0 = exampleBaseline.total) :=
  ⟨by norm_num [exampleBaseline],
    projection_identity_at_zero_params exampleBaseline (by norm_num [exampleBaseline])⟩

/-- C9 counterexample: with plans stored in creation order (ids 1, 2) and
a distinct current plan (id 3), getPreviousPlans returns the previous
plans oldest-first, not most-recent-first. -/
theorem getPreviousPlans_counterexample :
    getPreviousPlans [planA, planB, planC] (some 3) = [planA, planB] ∧
    ([planA, planB] : List WeeklyPlan) ≠ [planB, planA] := by
  constructor <;> decide

/-- C9 amended: getPreviousPlans returns exactly the stored plans whose id
differs from the current plan id, preserving their stored (creation)
order, oldest first. -/
theorem getPreviousPlans_spec (plans : List WeeklyPlan) (cid : ℤ) :
    (∀ p, p ∈ getPreviousPlans plans (some cid) ↔ (p ∈ plans ∧ p.id ≠ cid)) ∧
    (getPreviousPlans plans (some cid)).Sublist plans := by
  constructor
  · intro p
    simp [getPreviousPlans, List.mem_filter]
  · exact List.filter_sublist plans

/-- Witness for C10 at a concrete habit with an unknown frequency key. -/
theorem unknown_frequency_defaults_to_one_witness :
    mystHabit.category = Category.transport ∧
    mystHabit.frequency.bind FREQUENCY_FACTORS = none ∧
    habitEmissions mystHabit =
      jmul (JsNum.num (mystHabit.distance * 1)) (factorNum Category.transport mystHabit.type) ∧
    habitEmissions mystHabit = JsNum.num (3/10) :=
  ⟨by decide, by decide,
    unknown_frequency_defaults_to_one mystHabit (by decide) (by decide),
    by norm_num [habitEmissions, factorNum, EF_bus, FF_yearly, mystHabit, jmul]⟩

/-- C6 counterexample: starting from a plan already marked completed,
toggling its only goal off leaves the completed flag true although zero of
its one goal is completed, refuting "completed if and only if all goals
are completed". -/
theorem updatePlanProgress_completed_not_reset :
    (updatePlanProgress [demoDone] 5 0 false)[0]?.map (fun p => p.completed) =
      some true ∧
    (updatePlanProgress [demoDone] 5 0 false)[0]?.map
      (fun p => p.goals.countP (fun x => x.completed)) = some 0 ∧
    (updatePlanProgress [demoDone] 5 0 false)[0]?.map
      (fun p => p.goals.length) = some 1 := by
  refine ⟨?_, ?_, ?_⟩ <;> decide

/-- C6 amended: for a stored plan found by id and an in-range goal index,
updatePlanProgress sets that goal's completion flag to the given value,
leaves the other goals and plans unchanged, recomputes progress as
round(completedCount / totalGoals × 100), and sets the plan's completed
flag to true when all goals are completed while otherwise leaving it as it
was (it is never reset to false); an unknown plan id or out-of-range goal
index leaves the state unchanged. -/
theorem updatePlanProgress_spec (plans : List WeeklyPlan) (pid : ℤ) (i : ℕ)
    (c : Bool) :
    (List.findIdx? (fun p => p.id == pid) plans = none →
      updatePlanProgress plans pid i c = plans) ∧
    (∀ idx plan, List.findIdx? (fun p => p.id == pid) plans = some idx →
      plans[idx]? = some plan →
      (plan.goals[i]? = none → updatePlanProgress plans pid i c = plans) ∧
      (∀ g, plan.goals[i]? = some g →
        (updatePlanProgress plans pid i c).length = plans.length ∧
        (∀ j, j ≠ idx → (updatePlanProgress plans pid i c)[j]? = plans[j]?) ∧
        (∀ plan2, (updatePlanProgress plans pid i c)[idx]? = some plan2 →
          plan2.goals[i]? = some { g with completed := c } ∧
          (∀ j, j ≠ i → plan2.goals[j]? = plan.goals[j]?) ∧
          plan2.progress =
            jsRound ((plan2.goals.countP (fun x => x.completed) : ℚ) /
              (plan2.goals.length : ℚ) * 100) ∧
          plan2.completed =
            (decide (plan2.goals.countP (fun x => x.completed) =
              plan2.goals.length) || plan.completed)))) := by
  constructor
  · intro hnone
    simp only [updatePlanProgress, hnone]
  · intro idx plan hidx hplan
    constructor
    · intro hgoal
      simp only [updatePlanProgress, hidx, hplan, hgoal]
    · intro g hg
      have hlen : idx < plans.length := by
        rcases List.getElem?_eq_some.mp hplan with ⟨h, _⟩
        exact h
      have hgl : i < plan.goals.length := by
        rcases List.getElem?_eq_some.mp hg with ⟨h, _⟩
        exact h
      have hres : updatePlanProgress plans pid i c =
          plans.set idx
            { plan with
              goals := plan.goals.set i { g with completed := c },
              progress :=
                jsRound
                  (((plan.goals.set i { g with completed := c }).countP
                      (fun x => x.completed) : ℚ) /
                    ((plan.goals.set i { g with completed := c }).length : ℚ) * 100),
              completed :=
                if (plan.goals.set i { g with completed := c }).countP
                    (fun x => x.completed) =
                    (plan.goals.set i { g with completed := c }).length then true
                else plan.completed } := by
        simp only [updatePlanProgress, hidx, hplan, hg]
      refine ⟨by rw [hres, List.length_set], ?_, ?_⟩
      · intro j hj
        rw [hres, List.getElem?_set_ne (fun hc => hj hc.symm)]
      · intro plan2 h2
        rw [hres, List.getElem?_set_self hlen] at h2
        cases h2
        refine ⟨List.getElem?_set_self hgl, ?_, rfl, ?_⟩
        · intro j hj
          exact List.getElem?_set_ne (fun hc => hj hc.symm)
        · by_cases hall :
            (plan.goals.set i { g with completed := c }).countP
              (fun x => x.completed) =
              (plan.goals.set i { g with completed := c }).length <;>
            simp [hall]

/-- Witness for the amended C6: toggling the second goal of the four-goal
demo plan (one goal already done) yields progress 50 and a not-completed
plan, via the spec theorem. -/
theorem updatePlanProgress_spec_witness :
    (updatePlanProgress [demoPlan] 7 1 true)[0]? = some demoPlanAfter ∧
    demoPlanAfter.goals[1]? = some { value := "b", completed := true } ∧
    demoPlanAfter.progress =
      jsRound ((demoPlanAfter.goals.countP (fun x => x.completed) : ℚ) /
        (demoPlanAfter.goals.length : ℚ) * 100) ∧
    demoPlanAfter.completed =
      (decide (demoPlanAfter.goals.countP (fun x => x.completed) =
        demoPlanAfter.goals.length) || demoPlan.completed) ∧
    demoPlanAfter.progress = 50 ∧ demoPlanAfter.completed = false := by
  have hlist : updatePlanProgress [demoPlan] 7 1 true = [demoPlanAfter] := by
    simp [updatePlanProgress, demoPlan, demoPlanAfter, jsRound, List.findIdx?_cons]
    norm_num
  have hres : (updatePlanProgress [demoPlan] 7 1 true)[0]? = some demoPlanAfter := by
    rw [hlist]; rfl
  have h := ((updatePlanProgress_spec [demoPlan] 7 1 true).2 0 demoPlan
    (by decide) (by decide)).2 { value := "b", completed := false } (by decide)
  obtain ⟨h1, h2, h3⟩ := h
  have h4 := h3 demoPlanAfter hres
  exact ⟨hres, h4.1, h4.2.2.1, h4.2.2.2, rfl, rfl⟩

end Carbono
